import Mathlib

/-!
Shallow embedding of `src/get_vendor_summary.py` (vendor-relations-analytics).

The script has two pure components:

* `create_vendor_summary` — a SQL query over the base tables `purchases`,
  `purchase_prices`, `sales` and `vendor_invoice`: three aggregation CTEs
  (FreightSummary, PurchaseSummary, SalesSummary), two LEFT JOINs and a
  final `ORDER BY TotalPurchaseDollars DESC`.
* `clean_data` — a pandas dataframe cleaning pass: `Volume` type coercion,
  `fillna(0)`, `str.strip()` on `VendorName` / `Description`, and four
  derived columns computed with a `replace(0, NA)` guard before division.

Tables are embedded as Lean lists of structures; dataframe cells as a `Val`
type mirroring the dynamically typed pandas cells (null / number / string /
IEEE infinity), with float64 arithmetic on in-range values modelled by ℚ.
-/

/-- A pandas dataframe cell: missing (NaN / pd.NA / None), a finite number
(float64 values modelled exactly by ℚ on the magnitudes this pipeline
produces), a string, or an IEEE infinity (`inf sign` with `sign = true` for
negative infinity, the value float division by zero would produce). -/
inductive Val where
  | null : Val
  | num : ℚ → Val
  | str : String → Val
  | inf : Bool → Val
  deriving DecidableEq, Repr

namespace Val

/-- Pandas elementwise subtraction: number minus number is a number; any
missing operand propagates missingness.  (Non-numeric operands raise in
pandas; the pipeline never subtracts strings or infinities, and we model
those unreached cases as missing.) -/
def sub : Val → Val → Val
  | num a, num b => num (a - b)
  | _, _ => null

/-- Pandas elementwise multiplication: numbers multiply; an infinity times a
nonzero number keeps magnitude infinite with the product sign (times zero is
NaN); a missing operand propagates. -/
def mul : Val → Val → Val
  | num a, num b => num (a * b)
  | inf s, num b => if b = 0 then null else inf (xor s (decide (b < 0)))
  | num a, inf s => if a = 0 then null else inf (xor s (decide (a < 0)))
  | _, _ => null

/-- Pandas (float64) elementwise division: a nonzero number divided by zero
is a signed infinity, zero divided by zero is NaN (missing), and a missing
operand propagates missingness. -/
def div : Val → Val → Val
  | num a, num b =>
      if b = 0 then (if a = 0 then null else inf (decide (a < 0)))
      else num (a / b)
  | _, _ => null

/-- Whether the cell is an IEEE infinity. -/
def isInf : Val → Bool
  | inf _ => true
  | _ => false

end Val

/-- One row of the `purchases` base table (the columns the query reads). -/
structure PurchaseLine where
  VendorNumber : Int
  VendorName : String
  Brand : String
  Description : String
  PurchasePrice : ℚ
  Quantity : ℚ
  Dollars : ℚ
  deriving DecidableEq, Repr

/-- One row of the `purchase_prices` base table. -/
structure PriceRef where
  Brand : String
  Volume : ℚ
  Price : ℚ
  deriving DecidableEq, Repr

/-- One row of the `sales` base table. -/
structure SalesLine where
  VendorNo : Int
  Brand : String
  SalesDollars : ℚ
  SalesPrice : ℚ
  SalesQuantity : ℚ
  ExciseTax : ℚ
  deriving DecidableEq, Repr

/-- One row of the `vendor_invoice` base table. -/
structure FreightLine where
  VendorNumber : Int
  Freight : ℚ
  deriving DecidableEq, Repr

/-- The database handle: the four base tables the query reads. -/
structure Database where
  purchases : List PurchaseLine
  purchase_prices : List PriceRef
  sales : List SalesLine
  vendor_invoice : List FreightLine
  deriving Repr

/-- Row of the `FreightSummary` CTE: `SELECT VendorNumber, SUM(Freight) AS
FreightCost FROM vendor_invoice GROUP BY VendorNumber`. -/
structure FreightAggRow where
  VendorNumber : Int
  FreightCost : ℚ
  deriving DecidableEq, Repr

/-- The `FreightSummary` CTE: one row per distinct VendorNumber occurring in
`vendor_invoice`, with the vendor's Freight values summed. -/
def freightSummary (db : Database) : List FreightAggRow :=
  ((db.vendor_invoice.map (fun f => f.VendorNumber)).dedup).map (fun v =>
    { VendorNumber := v
      FreightCost :=
        ((db.vendor_invoice.filter (fun f => f.VendorNumber = v)).map
          (fun f => f.Freight)).sum })

/-- The GROUP BY key of the `PurchaseSummary` CTE: `(p1.VendorNumber,
p1.VendorName, p1.Brand, p1.Description, p1.PurchasePrice, p2.Volume,
p2.Price)`. -/
structure PKey where
  VendorNumber : Int
  VendorName : String
  Brand : String
  Description : String
  PurchasePrice : ℚ
  Volume : ℚ
  ActualPrice : ℚ
  deriving DecidableEq, Repr

/-- Row of the `PurchaseSummary` CTE. -/
structure PurchaseAggRow where
  key : PKey
  TotalPurchaseQuantity : ℚ
  TotalPurchaseDollars : ℚ
  deriving DecidableEq, Repr

/-- The inner join `purchases p1 JOIN purchase_prices p2 ON p1.Brand =
p2.Brand` restricted by `WHERE p1.PurchasePrice > 0`: the (p1, p2) pairs
that feed the PurchaseSummary grouping. -/
def purchaseJoined (db : Database) : List (PurchaseLine × PriceRef) :=
  (db.purchases.flatMap (fun p =>
    (db.purchase_prices.filter (fun r => r.Brand = p.Brand)).map
      (fun r => (p, r)))).filter (fun pr => 0 < pr.1.PurchasePrice)

/-- The GROUP BY key of a joined (p1, p2) pair. -/
def pkeyOf (pr : PurchaseLine × PriceRef) : PKey :=
  { VendorNumber := pr.1.VendorNumber
    VendorName := pr.1.VendorName
    Brand := pr.1.Brand
    Description := pr.1.Description
    PurchasePrice := pr.1.PurchasePrice
    Volume := pr.2.Volume
    ActualPrice := pr.2.Price }

/-- The `PurchaseSummary` CTE: group the filtered join by the seven-column
key and sum Quantity and Dollars. -/
def purchaseSummary (db : Database) : List PurchaseAggRow :=
  (((purchaseJoined db).map pkeyOf).dedup).map (fun k =>
    { key := k
      TotalPurchaseQuantity :=
        (((purchaseJoined db).filter (fun pr => pkeyOf pr = k)).map
          (fun pr => pr.1.Quantity)).sum
      TotalPurchaseDollars :=
        (((purchaseJoined db).filter (fun pr => pkeyOf pr = k)).map
          (fun pr => pr.1.Dollars)).sum })

/-- Row of the `SalesSummary` CTE. -/
structure SalesAggRow where
  VendorNo : Int
  Brand : String
  TotalSalesDollars : ℚ
  TotalSalesPrice : ℚ
  TotalSalesQuantity : ℚ
  TotalExciseTax : ℚ
  deriving DecidableEq, Repr

/-- The `SalesSummary` CTE: group `sales` by (VendorNo, Brand) and sum
SalesDollars, SalesPrice, SalesQuantity and ExciseTax. -/
def salesSummary (db : Database) : List SalesAggRow :=
  ((db.sales.map (fun s => (s.VendorNo, s.Brand))).dedup).map (fun k =>
    { VendorNo := k.1
      Brand := k.2
      TotalSalesDollars :=
        ((db.sales.filter (fun s => (s.VendorNo, s.Brand) = k)).map
          (fun s => s.SalesDollars)).sum
      TotalSalesPrice :=
        ((db.sales.filter (fun s => (s.VendorNo, s.Brand) = k)).map
          (fun s => s.SalesPrice)).sum
      TotalSalesQuantity :=
        ((db.sales.filter (fun s => (s.VendorNo, s.Brand) = k)).map
          (fun s => s.SalesQuantity)).sum
      TotalExciseTax :=
        ((db.sales.filter (fun s => (s.VendorNo, s.Brand) = k)).map
          (fun s => s.ExciseTax)).sum })

/-- SQL `LEFT JOIN r ON kb b = ka a`: every left row is kept; a left row
with matching right rows is paired with each match, one with no match is
paired with `none` (SQL NULLs on the right side). -/
def leftJoinOn {α β κ : Type} [DecidableEq κ] (ka : α → κ) (kb : β → κ)
    (l : List α) (r : List β) : List (α × Option β) :=
  l.flatMap (fun a =>
    match r.filter (fun b => kb b = ka a) with
    | [] => [(a, none)]
    | ms => ms.map (fun b => (a, some b)))

/-- Row of the query result, column for column the final SELECT list.  The
sales-side and freight columns come from LEFT JOINs, so they are nullable
(`none` = SQL NULL). -/
structure QueryRow where
  VendorNumber : Int
  VendorName : String
  Brand : String
  Description : String
  PurchasePrice : ℚ
  ActualPrice : ℚ
  Volume : ℚ
  TotalPurchaseQuantity : ℚ
  TotalPurchaseDollars : ℚ
  TotalSalesQuantity : Option ℚ
  TotalSalesDollars : Option ℚ
  TotalSalesPrice : Option ℚ
  TotalExciseTax : Option ℚ
  FreightCost : Option ℚ
  deriving DecidableEq, Repr

/-- Insert a row into a list sorted descending by the measure `f`. -/
def insertDesc {α : Type} (f : α → ℚ) (a : α) : List α → List α
  | [] => [a]
  | b :: l => if f b ≤ f a then a :: b :: l else b :: insertDesc f a l

/-- Sort a list descending by the measure `f` (`ORDER BY f DESC`; the
relative order of ties is not part of the SQL contract). -/
def sortDesc {α : Type} (f : α → ℚ) : List α → List α
  | [] => []
  | a :: l => insertDesc f a (sortDesc f l)

/-- Assemble one SELECT-list row from a PurchaseSummary row and its
optional SalesSummary and FreightSummary matches. -/
def mkQueryRow (ps : PurchaseAggRow) (ss : Option SalesAggRow)
    (fs : Option FreightAggRow) : QueryRow :=
  { VendorNumber := ps.key.VendorNumber
    VendorName := ps.key.VendorName
    Brand := ps.key.Brand
    Description := ps.key.Description
    PurchasePrice := ps.key.PurchasePrice
    ActualPrice := ps.key.ActualPrice
    Volume := ps.key.Volume
    TotalPurchaseQuantity := ps.TotalPurchaseQuantity
    TotalPurchaseDollars := ps.TotalPurchaseDollars
    TotalSalesQuantity := ss.map (fun s => s.TotalSalesQuantity)
    TotalSalesDollars := ss.map (fun s => s.TotalSalesDollars)
    TotalSalesPrice := ss.map (fun s => s.TotalSalesPrice)
    TotalExciseTax := ss.map (fun s => s.TotalExciseTax)
    FreightCost := fs.map (fun f => f.FreightCost) }

/-- The full query of `create_vendor_summary`: PurchaseSummary LEFT JOIN
SalesSummary ON (VendorNumber = VendorNo AND Brand = Brand), LEFT JOIN
FreightSummary ON VendorNumber, ORDER BY TotalPurchaseDollars DESC. -/
def create_vendor_summary (db : Database) : List QueryRow :=
  sortDesc (fun q => q.TotalPurchaseDollars)
    ((leftJoinOn (fun psss : PurchaseAggRow × Option SalesAggRow =>
        psss.1.key.VendorNumber) (fun f : FreightAggRow => f.VendorNumber)
      (leftJoinOn (fun ps : PurchaseAggRow => (ps.key.VendorNumber, ps.key.Brand))
        (fun s : SalesAggRow => (s.VendorNo, s.Brand))
        (purchaseSummary db) (salesSummary db))
      (freightSummary db)).map (fun x => mkQueryRow x.1.1 x.1.2 x.2))

/-- The dataframe row that `clean_data` receives: the fourteen columns of
the query result, each cell dynamically typed as in pandas. -/
structure SRow where
  VendorNumber : Val
  VendorName : Val
  Brand : Val
  Description : Val
  PurchasePrice : Val
  ActualPrice : Val
  Volume : Val
  TotalPurchaseQuantity : Val
  TotalPurchaseDollars : Val
  TotalSalesQuantity : Val
  TotalSalesDollars : Val
  TotalSalesPrice : Val
  TotalExciseTax : Val
  FreightCost : Val
  deriving DecidableEq, Repr

/-- The dataframe row after `clean_data`: the input columns plus the four
calculated columns appended by the function. -/
structure CRow extends SRow where
  GrossProfit : Val
  ProfitMargin : Val
  SalestoPurchaseRatio : Val
  StockTurnover : Val
  deriving DecidableEq, Repr

/-- The coercion `df["Volume"].astype("float64")` of line 81.  On the
values this pipeline stores in Volume — finite numbers read from SQL and
NULLs (NaN stays NaN under astype) — the coercion is value-preserving, so
it is the identity in this model. -/
def coerceFloat64 (v : Val) : Val := v

/-- One cell of `df.fillna(0)` (line 84): a missing value becomes the
number 0 (also in string columns, where pandas inserts the integer 0 into
the object column); every other value is untouched. -/
def fillVal : Val → Val
  | Val.null => Val.num 0
  | v => v

/-- One cell of `.str.strip()` (lines 88 and 90): a string is trimmed on
both ends; any non-string cell — including the number 0 that `fillna`
just wrote over a NULL — is mapped to NaN by the pandas `.str` accessor
(and NaN itself stays NaN). -/
def stripVal : Val → Val
  | Val.str s => Val.str s.trim
  | _ => Val.null

/-- One cell of `.replace(0, pd.NA)` (lines 95, 96, 99): the number 0
becomes missing; everything else is untouched. -/
def replace0 (v : Val) : Val :=
  if v = Val.num 0 then Val.null else v

/-- The body of `clean_data` on one row, statement for statement in source
order: (1) Volume astype float64, (2) `df.fillna(0)` over all columns,
(3) strip VendorName and Description, (4) the four calculated columns,
dividing by zero-replaced-with-NA denominators.  Note the fill step runs
BEFORE the calculated columns are added (line 84 before lines 93 to 99),
so NAs produced by the divisions are never filled. -/
def cleanRow (r : SRow) : CRow :=
  let r1 : SRow := { r with Volume := coerceFloat64 r.Volume }
  let r2 : SRow :=
    { VendorNumber := fillVal r1.VendorNumber
      VendorName := fillVal r1.VendorName
      Brand := fillVal r1.Brand
      Description := fillVal r1.Description
      PurchasePrice := fillVal r1.PurchasePrice
      ActualPrice := fillVal r1.ActualPrice
      Volume := fillVal r1.Volume
      TotalPurchaseQuantity := fillVal r1.TotalPurchaseQuantity
      TotalPurchaseDollars := fillVal r1.TotalPurchaseDollars
      TotalSalesQuantity := fillVal r1.TotalSalesQuantity
      TotalSalesDollars := fillVal r1.TotalSalesDollars
      TotalSalesPrice := fillVal r1.TotalSalesPrice
      TotalExciseTax := fillVal r1.TotalExciseTax
      FreightCost := fillVal r1.FreightCost }
  let r3 : SRow :=
    { r2 with VendorName := stripVal r2.VendorName
              Description := stripVal r2.Description }
  let gp := Val.sub r3.TotalSalesDollars r3.TotalPurchaseDollars
  let pm := Val.mul (Val.div gp (replace0 r3.TotalSalesDollars)) (Val.num 100)
  let spr := Val.div r3.TotalSalesDollars (replace0 r3.TotalPurchaseDollars)
  let st := Val.div r3.TotalSalesQuantity (replace0 r3.TotalPurchaseQuantity)
  { toSRow := r3
    GrossProfit := gp
    ProfitMargin := pm
    SalestoPurchaseRatio := spr
    StockTurnover := st }

/-- The function `clean_data`: the columnwise pandas operations of lines
80 to 99 act cellwise, so on the row list they are the elementwise map of
`cleanRow`. -/
def clean_data (df : List SRow) : List CRow :=
  df.map cleanRow

/-- Embed an optional SQL value as a dataframe cell (`read_sql_query`
turns SQL NULL into NaN). -/
def optNum : Option ℚ → Val
  | none => Val.null
  | some q => Val.num q

/-- Embed one SQL result row as the dataframe row pandas builds from it. -/
def toSRow (q : QueryRow) : SRow :=
  { VendorNumber := Val.num (q.VendorNumber : ℚ)
    VendorName := Val.str q.VendorName
    Brand := Val.str q.Brand
    Description := Val.str q.Description
    PurchasePrice := Val.num q.PurchasePrice
    ActualPrice := Val.num q.ActualPrice
    Volume := Val.num q.Volume
    TotalPurchaseQuantity := Val.num q.TotalPurchaseQuantity
    TotalPurchaseDollars := Val.num q.TotalPurchaseDollars
    TotalSalesQuantity := optNum q.TotalSalesQuantity
    TotalSalesDollars := optNum q.TotalSalesDollars
    TotalSalesPrice := optNum q.TotalSalesPrice
    TotalExciseTax := optNum q.TotalExciseTax
    FreightCost := optNum q.FreightCost }

/-- The pipeline of the orchestration block: query, then clean. -/
def pipeline (db : Database) : List CRow :=
  clean_data ((create_vendor_summary db).map toSRow)

/-- The purchase line of the scenario in the spec: Vendor 1, Brand "A",
PurchasePrice 10, Qty 5, Dollars 50. -/
def exPurchase : PurchaseLine :=
  { VendorNumber := 1, VendorName := "V", Brand := "A", Description := "D",
    PurchasePrice := 10, Quantity := 5, Dollars := 50 }

/-- The price reference row of the scenario: Brand "A", Volume 750,
Price 12. -/
def exRef : PriceRef := { Brand := "A", Volume := 750, Price := 12 }

/-- The database of the scenario: one purchase line, its matching price
reference row, no sales, one freight row (Vendor 1, Freight 3). -/
def exDB : Database :=
  { purchases := [exPurchase],
    purchase_prices := [exRef],
    sales := [],
    vendor_invoice := [{ VendorNumber := 1, Freight := 3 }] }

/-- Whether a cell is a finite number or missing (what SQL aggregation
results look like once read into the dataframe). -/
def numOrNull : Val → Bool
  | Val.null => true
  | Val.num _ => true
  | _ => false

/-- Whether any of the eighteen output columns of a cleaned row is
missing. -/
def rowNoNull (r : CRow) : Bool :=
  r.VendorNumber ≠ Val.null && r.VendorName ≠ Val.null &&
  r.Brand ≠ Val.null && r.Description ≠ Val.null &&
  r.PurchasePrice ≠ Val.null && r.ActualPrice ≠ Val.null &&
  r.Volume ≠ Val.null && r.TotalPurchaseQuantity ≠ Val.null &&
  r.TotalPurchaseDollars ≠ Val.null && r.TotalSalesQuantity ≠ Val.null &&
  r.TotalSalesDollars ≠ Val.null && r.TotalSalesPrice ≠ Val.null &&
  r.TotalExciseTax ≠ Val.null && r.FreightCost ≠ Val.null &&
  r.GrossProfit ≠ Val.null && r.ProfitMargin ≠ Val.null &&
  r.SalestoPurchaseRatio ≠ Val.null && r.StockTurnover ≠ Val.null

lemma fillVal_of_ne_null {v : Val} (h : v ≠ Val.null) : fillVal v = v := by
  cases v <;> simp_all [fillVal]

lemma fillVal_optNum (o : Option ℚ) :
    fillVal (optNum o) = Val.num (o.getD 0) := by
  cases o <;> rfl

lemma cleanRow_VendorNumber (r : SRow) :
    (cleanRow r).VendorNumber = fillVal r.VendorNumber := rfl

lemma cleanRow_VendorName (r : SRow) :
    (cleanRow r).VendorName = stripVal (fillVal r.VendorName) := rfl

lemma cleanRow_Brand (r : SRow) :
    (cleanRow r).Brand = fillVal r.Brand := rfl

lemma cleanRow_Description (r : SRow) :
    (cleanRow r).Description = stripVal (fillVal r.Description) := rfl

lemma cleanRow_PurchasePrice (r : SRow) :
    (cleanRow r).PurchasePrice = fillVal r.PurchasePrice := rfl

lemma cleanRow_ActualPrice (r : SRow) :
    (cleanRow r).ActualPrice = fillVal r.ActualPrice := rfl

lemma cleanRow_Volume (r : SRow) :
    (cleanRow r).Volume = fillVal (coerceFloat64 r.Volume) := rfl

lemma cleanRow_TPQ (r : SRow) :
    (cleanRow r).TotalPurchaseQuantity = fillVal r.TotalPurchaseQuantity := rfl

lemma cleanRow_TPD (r : SRow) :
    (cleanRow r).TotalPurchaseDollars = fillVal r.TotalPurchaseDollars := rfl

lemma cleanRow_TSQ (r : SRow) :
    (cleanRow r).TotalSalesQuantity = fillVal r.TotalSalesQuantity := rfl

lemma cleanRow_TSD (r : SRow) :
    (cleanRow r).TotalSalesDollars = fillVal r.TotalSalesDollars := rfl

lemma cleanRow_TSP (r : SRow) :
    (cleanRow r).TotalSalesPrice = fillVal r.TotalSalesPrice := rfl

lemma cleanRow_TET (r : SRow) :
    (cleanRow r).TotalExciseTax = fillVal r.TotalExciseTax := rfl

lemma cleanRow_FreightCost (r : SRow) :
    (cleanRow r).FreightCost = fillVal r.FreightCost := rfl

lemma cleanRow_GrossProfit (r : SRow) :
    (cleanRow r).GrossProfit =
      Val.sub (fillVal r.TotalSalesDollars) (fillVal r.TotalPurchaseDollars) := rfl

lemma cleanRow_ProfitMargin (r : SRow) :
    (cleanRow r).ProfitMargin =
      Val.mul
        (Val.div
          (Val.sub (fillVal r.TotalSalesDollars) (fillVal r.TotalPurchaseDollars))
          (replace0 (fillVal r.TotalSalesDollars)))
        (Val.num 100) := rfl

lemma cleanRow_SPR (r : SRow) :
    (cleanRow r).SalestoPurchaseRatio =
      Val.div (fillVal r.TotalSalesDollars)
        (replace0 (fillVal r.TotalPurchaseDollars)) := rfl

lemma cleanRow_StockTurnover (r : SRow) :
    (cleanRow r).StockTurnover =
      Val.div (fillVal r.TotalSalesQuantity)
        (replace0 (fillVal r.TotalPurchaseQuantity)) := rfl

lemma div_replace0_num (a : ℚ) (v : Val) :
    Val.div v (replace0 (Val.num a)) =
      if a = 0 then Val.null
      else match v with
        | Val.num b => Val.num (b / a)
        | _ => Val.null := by
  by_cases h : a = 0 <;> simp [replace0, h, Val.div] <;> cases v <;> simp [Val.div, h]

lemma replace0_ne_num_zero (w : Val) : replace0 w ≠ Val.num 0 := by
  unfold replace0
  split_ifs with h
  · exact fun hc => Val.noConfusion hc
  · exact h

lemma div_replace0_not_inf (v w : Val) :
    (Val.div v (replace0 w)).isInf = false := by
  have h := replace0_ne_num_zero w
  cases hw : replace0 w <;> cases v <;> simp_all [Val.div, Val.isInf]

lemma mul_num100_not_inf {v : Val} (h : v.isInf = false) :
    (Val.mul v (Val.num 100)).isInf = false := by
  cases v <;> simp_all [Val.mul, Val.isInf]

lemma mul_null_num (a : ℚ) : Val.mul Val.null (Val.num a) = Val.null := rfl

lemma length_insertDesc {α : Type} (f : α → ℚ) (a : α) (l : List α) :
    (insertDesc f a l).length = l.length + 1 := by
  induction l with
  | nil => rfl
  | cons b t ih => simp only [insertDesc]; split_ifs <;> simp [ih]

lemma length_sortDesc {α : Type} (f : α → ℚ) (l : List α) :
    (sortDesc f l).length = l.length := by
  induction l with
  | nil => rfl
  | cons a t ih => simp [sortDesc, length_insertDesc, ih]

lemma mem_insertDesc {α : Type} (f : α → ℚ) (a c : α) (l : List α) :
    c ∈ insertDesc f a l ↔ c = a ∨ c ∈ l := by
  induction l with
  | nil => simp [insertDesc]
  | cons b t ih =>
      simp only [insertDesc]
      split_ifs <;> simp [ih] <;> tauto

lemma sorted_insertDesc {α : Type} (f : α → ℚ) (a : α) {l : List α}
    (h : List.Sorted (fun x y => f y ≤ f x) l) :
    List.Sorted (fun x y => f y ≤ f x) (insertDesc f a l) := by
  induction l with
  | nil => simp [insertDesc]
  | cons b t ih =>
      rw [List.sorted_cons] at h
      simp only [insertDesc]
      split_ifs with hba
      · rw [List.sorted_cons]
        refine ⟨?_, List.sorted_cons.mpr h⟩
        intro c hc
        rcases List.mem_cons.mp hc with hc | hc
        · exact hc ▸ hba
        · exact le_trans (h.1 c hc) hba
      · rw [List.sorted_cons]
        refine ⟨?_, ih h.2⟩
        intro c hc
        rcases (mem_insertDesc f a c t).mp hc with hc | hc
        · exact hc ▸ le_of_not_le hba
        · exact h.1 c hc

lemma sorted_sortDesc {α : Type} (f : α → ℚ) (l : List α) :
    List.Sorted (fun x y => f y ≤ f x) (sortDesc f l) := by
  induction l with
  | nil => simp [sortDesc]
  | cons a t ih => exact sorted_insertDesc f a ih

lemma length_filter_key_le_one {β κ : Type} [DecidableEq κ] (kb : β → κ)
    (r : List β) (h : (r.map kb).Nodup) (k : κ) :
    (r.filter (fun b => kb b = k)).length ≤ 1 := by
  induction r with
  | nil => simp
  | cons b t ih =>
      rw [List.map_cons, List.nodup_cons] at h
      by_cases hk : kb b = k
      · have ht : t.filter (fun x => kb x = k) = [] := by
          rw [List.filter_eq_nil_iff]
          intro x hx hkx
          exact h.1 (List.mem_map.mpr ⟨x, hx, by
            simp at hkx
            rw [hkx, hk]⟩)
        simp [List.filter_cons, hk, ht]
      · simp only [List.filter_cons]
        simp only [hk, decide_False, if_false]
        exact ih h.2

lemma leftJoinOn_length {α β κ : Type} [DecidableEq κ] (ka : α → κ)
    (kb : β → κ) (l : List α) (r : List β) (h : (r.map kb).Nodup) :
    (leftJoinOn ka kb l r).length = l.length := by
  induction l with
  | nil => rfl
  | cons a t ih =>
      unfold leftJoinOn at ih ⊢
      rw [List.flatMap_cons, List.length_append, ih]
      have hle := length_filter_key_le_one kb r h (ka a)
      cases hm : r.filter (fun b => kb b = ka a) with
      | nil => simp [Nat.add_comm]
      | cons b bs =>
          rw [hm] at hle
          simp only [List.length_cons] at hle
          have hbs : bs = [] := List.length_eq_zero.mp (by omega)
          subst hbs
          simp [Nat.add_comm]

lemma salesSummary_keys_nodup (db : Database) :
    ((salesSummary db).map (fun s => (s.VendorNo, s.Brand))).Nodup := by
  unfold salesSummary
  rw [List.map_map]
  have h : (List.map
      ((fun s : SalesAggRow => (s.VendorNo, s.Brand)) ∘ (fun k : Int × String =>
        ({ VendorNo := k.1, Brand := k.2
           TotalSalesDollars := ((db.sales.filter
             (fun s => (s.VendorNo, s.Brand) = k)).map
               (fun s => s.SalesDollars)).sum
           TotalSalesPrice := ((db.sales.filter
             (fun s => (s.VendorNo, s.Brand) = k)).map
               (fun s => s.SalesPrice)).sum
           TotalSalesQuantity := ((db.sales.filter
             (fun s => (s.VendorNo, s.Brand) = k)).map
               (fun s => s.SalesQuantity)).sum
           TotalExciseTax := ((db.sales.filter
             (fun s => (s.VendorNo, s.Brand) = k)).map
               (fun s => s.ExciseTax)).sum } : SalesAggRow)))
      ((db.sales.map (fun s => (s.VendorNo, s.Brand))).dedup)) =
      List.map id ((db.sales.map (fun s => (s.VendorNo, s.Brand))).dedup) := rfl
  rw [h, List.map_id]
  exact List.nodup_dedup _

lemma freightSummary_keys_nodup (db : Database) :
    ((freightSummary db).map (fun f => f.VendorNumber)).Nodup := by
  unfold freightSummary
  rw [List.map_map]
  have h : (List.map
      ((fun f : FreightAggRow => f.VendorNumber) ∘ (fun v : Int =>
        ({ VendorNumber := v
           FreightCost := ((db.vendor_invoice.filter
             (fun f => f.VendorNumber = v)).map (fun f => f.Freight)).sum }
          : FreightAggRow)))
      ((db.vendor_invoice.map (fun f => f.VendorNumber)).dedup)) =
      List.map id ((db.vendor_invoice.map (fun f => f.VendorNumber)).dedup) := rfl
  rw [h, List.map_id]
  exact List.nodup_dedup _

lemma purchaseSummary_keys_nodup (db : Database) :
    ((purchaseSummary db).map PurchaseAggRow.key).Nodup := by
  unfold purchaseSummary
  rw [List.map_map]
  have h : (List.map
      (PurchaseAggRow.key ∘ (fun k : PKey =>
        ({ key := k
           TotalPurchaseQuantity := (((purchaseJoined db).filter
             (fun pr => pkeyOf pr = k)).map (fun pr => pr.1.Quantity)).sum
           TotalPurchaseDollars := (((purchaseJoined db).filter
             (fun pr => pkeyOf pr = k)).map (fun pr => pr.1.Dollars)).sum }
          : PurchaseAggRow)))
      (((purchaseJoined db).map pkeyOf).dedup)) =
      List.map id (((purchaseJoined db).map pkeyOf).dedup) := rfl
  rw [h, List.map_id]
  exact List.nodup_dedup _

lemma mem_pipeline {db : Database} {row : CRow} :
    row ∈ pipeline db ↔
      ∃ q ∈ create_vendor_summary db, row = cleanRow (toSRow q) := by
  unfold pipeline clean_data
  rw [List.map_map, List.mem_map]
  constructor
  · rintro ⟨q, hq, rfl⟩
    exact ⟨q, hq, rfl⟩
  · rintro ⟨q, hq, rfl⟩
    exact ⟨q, hq, rfl⟩

lemma div_null_right (v : Val) : Val.div v Val.null = Val.null := by
  cases v <;> rfl

lemma ctr_VendorNumber (q : QueryRow) :
    (cleanRow (toSRow q)).VendorNumber = Val.num (q.VendorNumber : ℚ) := rfl

lemma ctr_VendorName (q : QueryRow) :
    (cleanRow (toSRow q)).VendorName = Val.str q.VendorName.trim := rfl

lemma ctr_Brand (q : QueryRow) :
    (cleanRow (toSRow q)).Brand = Val.str q.Brand := rfl

lemma ctr_Description (q : QueryRow) :
    (cleanRow (toSRow q)).Description = Val.str q.Description.trim := rfl

lemma ctr_PurchasePrice (q : QueryRow) :
    (cleanRow (toSRow q)).PurchasePrice = Val.num q.PurchasePrice := rfl

lemma ctr_ActualPrice (q : QueryRow) :
    (cleanRow (toSRow q)).ActualPrice = Val.num q.ActualPrice := rfl

lemma ctr_Volume (q : QueryRow) :
    (cleanRow (toSRow q)).Volume = Val.num q.Volume := rfl

lemma ctr_TPQ (q : QueryRow) :
    (cleanRow (toSRow q)).TotalPurchaseQuantity =
      Val.num q.TotalPurchaseQuantity := rfl

lemma ctr_TPD (q : QueryRow) :
    (cleanRow (toSRow q)).TotalPurchaseDollars =
      Val.num q.TotalPurchaseDollars := rfl

lemma ctr_TSQ (q : QueryRow) :
    (cleanRow (toSRow q)).TotalSalesQuantity =
      Val.num (q.TotalSalesQuantity.getD 0) := by
  rw [cleanRow_TSQ]
  exact fillVal_optNum _

lemma ctr_TSD (q : QueryRow) :
    (cleanRow (toSRow q)).TotalSalesDollars =
      Val.num (q.TotalSalesDollars.getD 0) := by
  rw [cleanRow_TSD]
  exact fillVal_optNum _

lemma ctr_TSP (q : QueryRow) :
    (cleanRow (toSRow q)).TotalSalesPrice =
      Val.num (q.TotalSalesPrice.getD 0) := by
  rw [cleanRow_TSP]
  exact fillVal_optNum _

lemma ctr_TET (q : QueryRow) :
    (cleanRow (toSRow q)).TotalExciseTax =
      Val.num (q.TotalExciseTax.getD 0) := by
  rw [cleanRow_TET]
  exact fillVal_optNum _

lemma ctr_FreightCost (q : QueryRow) :
    (cleanRow (toSRow q)).FreightCost =
      Val.num (q.FreightCost.getD 0) := by
  rw [cleanRow_FreightCost]
  exact fillVal_optNum _

lemma ctr_GP (q : QueryRow) :
    (cleanRow (toSRow q)).GrossProfit =
      Val.num (q.TotalSalesDollars.getD 0 - q.TotalPurchaseDollars) := by
  rw [cleanRow_GrossProfit]
  show Val.sub (fillVal (optNum q.TotalSalesDollars))
    (fillVal (Val.num q.TotalPurchaseDollars)) = _
  rw [fillVal_optNum]
  rfl

lemma ctr_PM (q : QueryRow) :
    (cleanRow (toSRow q)).ProfitMargin =
      if q.TotalSalesDollars.getD 0 = 0 then Val.null
      else Val.num ((q.TotalSalesDollars.getD 0 - q.TotalPurchaseDollars) /
        q.TotalSalesDollars.getD 0 * 100) := by
  rw [cleanRow_ProfitMargin]
  show Val.mul (Val.div
      (Val.sub (fillVal (optNum q.TotalSalesDollars))
        (fillVal (Val.num q.TotalPurchaseDollars)))
      (replace0 (fillVal (optNum q.TotalSalesDollars)))) (Val.num 100) = _
  rw [fillVal_optNum]
  by_cases h : q.TotalSalesDollars.getD 0 = 0
  · rw [h]
    simp only [replace0, if_pos rfl]
    rw [show fillVal (Val.num q.TotalPurchaseDollars) =
      Val.num q.TotalPurchaseDollars from rfl]
    rw [show Val.sub (Val.num 0) (Val.num q.TotalPurchaseDollars) =
      Val.num (0 - q.TotalPurchaseDollars) from rfl]
    simp [div_null_right, mul_null_num]
  · have hne : Val.num (q.TotalSalesDollars.getD 0) ≠ Val.num 0 := by
      simp [h]
    simp only [replace0, if_neg hne, if_neg h]
    rw [show fillVal (Val.num q.TotalPurchaseDollars) =
      Val.num q.TotalPurchaseDollars from rfl]
    simp [Val.sub, Val.div, Val.mul, h]

lemma ctr_SPR (q : QueryRow) :
    (cleanRow (toSRow q)).SalestoPurchaseRatio =
      if q.TotalPurchaseDollars = 0 then Val.null
      else Val.num (q.TotalSalesDollars.getD 0 / q.TotalPurchaseDollars) := by
  rw [cleanRow_SPR]
  show Val.div (fillVal (optNum q.TotalSalesDollars))
    (replace0 (fillVal (Val.num q.TotalPurchaseDollars))) = _
  rw [fillVal_optNum]
  rw [show fillVal (Val.num q.TotalPurchaseDollars) =
    Val.num q.TotalPurchaseDollars from rfl]
  by_cases h : q.TotalPurchaseDollars = 0
  · rw [h]
    simp [replace0, div_null_right]
  · have hne : Val.num q.TotalPurchaseDollars ≠ Val.num 0 := by simp [h]
    simp only [replace0, if_neg hne, if_neg h]
    simp [Val.div, h]

lemma ctr_ST (q : QueryRow) :
    (cleanRow (toSRow q)).StockTurnover =
      if q.TotalPurchaseQuantity = 0 then Val.null
      else Val.num (q.TotalSalesQuantity.getD 0 / q.TotalPurchaseQuantity) := by
  rw [cleanRow_StockTurnover]
  show Val.div (fillVal (optNum q.TotalSalesQuantity))
    (replace0 (fillVal (Val.num q.TotalPurchaseQuantity))) = _
  rw [fillVal_optNum]
  rw [show fillVal (Val.num q.TotalPurchaseQuantity) =
    Val.num q.TotalPurchaseQuantity from rfl]
  by_cases h : q.TotalPurchaseQuantity = 0
  · rw [h]
    simp [replace0, div_null_right]
  · have hne : Val.num q.TotalPurchaseQuantity ≠ Val.num 0 := by simp [h]
    simp only [replace0, if_neg hne, if_neg h]
    simp [Val.div, h]

/-- The single output row the pipeline produces on the scenario database
`exDB` (the trimmed strings are written as explicit `trim` applications). -/
def exRowOut : CRow :=
  { VendorNumber := Val.num 1, VendorName := Val.str ("V".trim),
    Brand := Val.str "A", Description := Val.str ("D".trim),
    PurchasePrice := Val.num 10, ActualPrice := Val.num 12,
    Volume := Val.num 750, TotalPurchaseQuantity := Val.num 5,
    TotalPurchaseDollars := Val.num 50, TotalSalesQuantity := Val.num 0,
    TotalSalesDollars := Val.num 0, TotalSalesPrice := Val.num 0,
    TotalExciseTax := Val.num 0, FreightCost := Val.num 3,
    GrossProfit := Val.num (-50), ProfitMargin := Val.null,
    SalestoPurchaseRatio := Val.num 0, StockTurnover := Val.num 0 }

lemma eval_pipeline_exDB : pipeline exDB = [exRowOut] := by
  norm_num [pipeline, clean_data, create_vendor_summary, purchaseSummary,
    purchaseJoined, salesSummary, freightSummary, leftJoinOn, sortDesc,
    insertDesc, mkQueryRow, toSRow, optNum, pkeyOf, exDB, exPurchase, exRef,
    cleanRow, coerceFloat64, fillVal, stripVal, replace0, Val.sub, Val.div,
    Val.mul, exRowOut, List.dedup_cons_of_not_mem, List.filter_cons]

/-- A cleaner input row whose three ratio denominators are all the number
zero. -/
def wZeroRow : SRow :=
  { VendorNumber := Val.num 0, VendorName := Val.num 0,
    Brand := Val.num 0, Description := Val.num 0,
    PurchasePrice := Val.num 0, ActualPrice := Val.num 0,
    Volume := Val.num 0, TotalPurchaseQuantity := Val.num 0,
    TotalPurchaseDollars := Val.num 0, TotalSalesQuantity := Val.num 0,
    TotalSalesDollars := Val.num 0, TotalSalesPrice := Val.num 0,
    TotalExciseTax := Val.num 0, FreightCost := Val.num 0 }

/-- A cleaner input row with a padded VendorName and a missing
Description. -/
def wStrRow : SRow :=
  { VendorNumber := Val.num 1, VendorName := Val.str " x ",
    Brand := Val.str "A", Description := Val.null,
    PurchasePrice := Val.num 1, ActualPrice := Val.num 1,
    Volume := Val.num 1, TotalPurchaseQuantity := Val.num 1,
    TotalPurchaseDollars := Val.num 1, TotalSalesQuantity := Val.num 1,
    TotalSalesDollars := Val.num 1, TotalSalesPrice := Val.num 1,
    TotalExciseTax := Val.num 1, FreightCost := Val.num 1 }

/-- A cleaner input row with every cell the (non-null) number one. -/
def wOneRow : SRow :=
  { VendorNumber := Val.num 1, VendorName := Val.num 1,
    Brand := Val.num 1, Description := Val.num 1,
    PurchasePrice := Val.num 1, ActualPrice := Val.num 1,
    Volume := Val.num 1, TotalPurchaseQuantity := Val.num 1,
    TotalPurchaseDollars := Val.num 1, TotalSalesQuantity := Val.num 1,
    TotalSalesDollars := Val.num 1, TotalSalesPrice := Val.num 1,
    TotalExciseTax := Val.num 1, FreightCost := Val.num 1 }

/-- C4: in the ratio derivations a zero denominator never produces an
infinity; it yields a null at the point of that computation (the
`replace(0, NA)` guard turns the zero denominator into NA before the
division, and NA propagates).  Stated for every dataframe row. -/
theorem C4_zero_denominator_null_not_inf (r : SRow) :
    ((cleanRow r).ProfitMargin.isInf = false ∧
     (cleanRow r).SalestoPurchaseRatio.isInf = false ∧
     (cleanRow r).StockTurnover.isInf = false) ∧
    (r.TotalSalesDollars = Val.num 0 → (cleanRow r).ProfitMargin = Val.null) ∧
    (r.TotalPurchaseDollars = Val.num 0 →
      (cleanRow r).SalestoPurchaseRatio = Val.null) ∧
    (r.TotalPurchaseQuantity = Val.num 0 →
      (cleanRow r).StockTurnover = Val.null) := by
  refine ⟨⟨?_, ?_, ?_⟩, ?_, ?_, ?_⟩
  · rw [cleanRow_ProfitMargin]
    exact mul_num100_not_inf (div_replace0_not_inf _ _)
  · rw [cleanRow_SPR]
    exact div_replace0_not_inf _ _
  · rw [cleanRow_StockTurnover]
    exact div_replace0_not_inf _ _
  · intro h
    rw [cleanRow_ProfitMargin, h]
    rw [show fillVal (Val.num 0) = Val.num 0 from rfl]
    rw [show replace0 (Val.num 0) = Val.null from by simp [replace0]]
    rw [div_null_right, mul_null_num]
  · intro h
    rw [cleanRow_SPR, h]
    rw [show fillVal (Val.num 0) = Val.num 0 from rfl]
    rw [show replace0 (Val.num 0) = Val.null from by simp [replace0]]
    rw [div_null_right]
  · intro h
    rw [cleanRow_StockTurnover, h]
    rw [show fillVal (Val.num 0) = Val.num 0 from rfl]
    rw [show replace0 (Val.num 0) = Val.null from by simp [replace0]]
    rw [div_null_right]

/-- Witness for C4 at the all-zero row. -/
theorem C4_zero_denominator_null_not_inf_witness :
    (cleanRow wZeroRow).ProfitMargin = Val.null ∧
    (cleanRow wZeroRow).SalestoPurchaseRatio = Val.null ∧
    (cleanRow wZeroRow).StockTurnover = Val.null ∧
    (cleanRow wZeroRow).ProfitMargin.isInf = false :=
  ⟨(C4_zero_denominator_null_not_inf wZeroRow).2.1 rfl,
   (C4_zero_denominator_null_not_inf wZeroRow).2.2.1 rfl,
   (C4_zero_denominator_null_not_inf wZeroRow).2.2.2 rfl,
   (C4_zero_denominator_null_not_inf wZeroRow).1.1⟩

/-- C5: the Cleaner trims leading and trailing whitespace from VendorName
and Description, and a null in those columns comes out of the Cleaner
still null — not the string "nan" or any other non-null value; the
trimming step itself maps null to null. -/
theorem C5_trim_and_null_passthrough (r : SRow) :
    (∀ s, r.VendorName = Val.str s →
      (cleanRow r).VendorName = Val.str s.trim) ∧
    (r.VendorName = Val.null → (cleanRow r).VendorName = Val.null) ∧
    (∀ s, r.Description = Val.str s →
      (cleanRow r).Description = Val.str s.trim) ∧
    (r.Description = Val.null → (cleanRow r).Description = Val.null) ∧
    stripVal Val.null = Val.null := by
  refine ⟨?_, ?_, ?_, ?_, rfl⟩
  · intro s h
    rw [cleanRow_VendorName, h]
    rfl
  · intro h
    rw [cleanRow_VendorName, h]
    rfl
  · intro s h
    rw [cleanRow_Description, h]
    rfl
  · intro h
    rw [cleanRow_Description, h]
    rfl

/-- Witness for C5 at a row with a padded VendorName and a null
Description. -/
theorem C5_trim_and_null_passthrough_witness :
    (cleanRow wStrRow).VendorName = Val.str (" x ".trim) ∧
    (cleanRow wStrRow).Description = Val.null :=
  ⟨(C5_trim_and_null_passthrough wStrRow).1 " x " rfl,
   (C5_trim_and_null_passthrough wStrRow).2.2.2.1 rfl⟩

/-- C6: beyond the documented columns (Volume coercion, null fill,
VendorName and Description trimming, the four appended derived columns)
the Cleaner leaves every field unchanged: any non-null value of the
eleven remaining columns survives `clean_data` verbatim. -/
theorem C6_frame_other_fields_unchanged (r : SRow) :
    (r.VendorNumber ≠ Val.null →
      (cleanRow r).VendorNumber = r.VendorNumber) ∧
    (r.Brand ≠ Val.null → (cleanRow r).Brand = r.Brand) ∧
    (r.PurchasePrice ≠ Val.null →
      (cleanRow r).PurchasePrice = r.PurchasePrice) ∧
    (r.ActualPrice ≠ Val.null → (cleanRow r).ActualPrice = r.ActualPrice) ∧
    (r.TotalPurchaseQuantity ≠ Val.null →
      (cleanRow r).TotalPurchaseQuantity = r.TotalPurchaseQuantity) ∧
    (r.TotalPurchaseDollars ≠ Val.null →
      (cleanRow r).TotalPurchaseDollars = r.TotalPurchaseDollars) ∧
    (r.TotalSalesQuantity ≠ Val.null →
      (cleanRow r).TotalSalesQuantity = r.TotalSalesQuantity) ∧
    (r.TotalSalesDollars ≠ Val.null →
      (cleanRow r).TotalSalesDollars = r.TotalSalesDollars) ∧
    (r.TotalSalesPrice ≠ Val.null →
      (cleanRow r).TotalSalesPrice = r.TotalSalesPrice) ∧
    (r.TotalExciseTax ≠ Val.null →
      (cleanRow r).TotalExciseTax = r.TotalExciseTax) ∧
    (r.FreightCost ≠ Val.null → (cleanRow r).FreightCost = r.FreightCost) := by
  refine ⟨?_, ?_, ?_, ?_, ?_, ?_, ?_, ?_, ?_, ?_, ?_⟩
  · intro h
    rw [cleanRow_VendorNumber]
    exact fillVal_of_ne_null h
  · intro h
    rw [cleanRow_Brand]
    exact fillVal_of_ne_null h
  · intro h
    rw [cleanRow_PurchasePrice]
    exact fillVal_of_ne_null h
  · intro h
    rw [cleanRow_ActualPrice]
    exact fillVal_of_ne_null h
  · intro h
    rw [cleanRow_TPQ]
    exact fillVal_of_ne_null h
  · intro h
    rw [cleanRow_TPD]
    exact fillVal_of_ne_null h
  · intro h
    rw [cleanRow_TSQ]
    exact fillVal_of_ne_null h
  · intro h
    rw [cleanRow_TSD]
    exact fillVal_of_ne_null h
  · intro h
    rw [cleanRow_TSP]
    exact fillVal_of_ne_null h
  · intro h
    rw [cleanRow_TET]
    exact fillVal_of_ne_null h
  · intro h
    rw [cleanRow_FreightCost]
    exact fillVal_of_ne_null h

/-- Witness for C6 at the all-ones row. -/
theorem C6_frame_other_fields_unchanged_witness :
    (cleanRow wOneRow).VendorNumber = wOneRow.VendorNumber ∧
    (cleanRow wOneRow).Brand = wOneRow.Brand ∧
    (cleanRow wOneRow).PurchasePrice = wOneRow.PurchasePrice ∧
    (cleanRow wOneRow).ActualPrice = wOneRow.ActualPrice ∧
    (cleanRow wOneRow).TotalPurchaseQuantity = wOneRow.TotalPurchaseQuantity ∧
    (cleanRow wOneRow).TotalPurchaseDollars = wOneRow.TotalPurchaseDollars ∧
    (cleanRow wOneRow).TotalSalesQuantity = wOneRow.TotalSalesQuantity ∧
    (cleanRow wOneRow).TotalSalesDollars = wOneRow.TotalSalesDollars ∧
    (cleanRow wOneRow).TotalSalesPrice = wOneRow.TotalSalesPrice ∧
    (cleanRow wOneRow).TotalExciseTax = wOneRow.TotalExciseTax ∧
    (cleanRow wOneRow).FreightCost = wOneRow.FreightCost :=
  ⟨(C6_frame_other_fields_unchanged wOneRow).1 (by simp [wOneRow]),
   (C6_frame_other_fields_unchanged wOneRow).2.1 (by simp [wOneRow]),
   (C6_frame_other_fields_unchanged wOneRow).2.2.1 (by simp [wOneRow]),
   (C6_frame_other_fields_unchanged wOneRow).2.2.2.1 (by simp [wOneRow]),
   (C6_frame_other_fields_unchanged wOneRow).2.2.2.2.1 (by simp [wOneRow]),
   (C6_frame_other_fields_unchanged wOneRow).2.2.2.2.2.1 (by simp [wOneRow]),
   (C6_frame_other_fields_unchanged wOneRow).2.2.2.2.2.2.1 (by simp [wOneRow]),
   (C6_frame_other_fields_unchanged wOneRow).2.2.2.2.2.2.2.1 (by simp [wOneRow]),
   (C6_frame_other_fields_unchanged wOneRow).2.2.2.2.2.2.2.2.1 (by simp [wOneRow]),
   (C6_frame_other_fields_unchanged wOneRow).2.2.2.2.2.2.2.2.2.1 (by simp [wOneRow]),
   (C6_frame_other_fields_unchanged wOneRow).2.2.2.2.2.2.2.2.2.2 (by simp [wOneRow])⟩

/-- C7: the query output has exactly one row per PurchaseSummary group:
the two LEFT JOINs (whose right sides are keyed uniquely by their GROUP
BYs) neither drop nor duplicate purchase-side rows, and the final sort
preserves the count. -/
theorem C7_row_count_eq_purchase_groups (db : Database) :
    (create_vendor_summary db).length = (purchaseSummary db).length := by
  unfold create_vendor_summary
  rw [length_sortDesc, List.length_map,
    leftJoinOn_length _ _ _ _ (freightSummary_keys_nodup db),
    leftJoinOn_length _ _ _ _ (salesSummary_keys_nodup db)]

/-- C9: the row sequence returned by the query is sorted in descending
order of TotalPurchaseDollars. -/
theorem C9_output_sorted_desc (db : Database) :
    List.Sorted
      (fun a b : QueryRow => b.TotalPurchaseDollars ≤ a.TotalPurchaseDollars)
      (create_vendor_summary db) :=
  sorted_sortDesc _ _

/-- C10: the Cleaner preserves the number of rows and their order; the
row at every position of the output is the cleaning of the row at the
same position of the input. -/
theorem C10_cleaner_preserves_rows (df : List SRow) :
    (clean_data df).length = df.length ∧
    ∀ i : Nat, (clean_data df)[i]? = (df[i]?).map cleanRow := by
  constructor
  · simp [clean_data]
  · intro i
    simp [clean_data]

/-- C1 counterexample: on the scenario database the cleaned output has a
null field (ProfitMargin), so it is not the case that after the Cleaner
runs no field of any output row is null — `fillna(0)` runs at line 84,
before the ratio derivations of lines 93 to 99, so the NAs produced by
the zero-denominator policy are never filled. -/
theorem C1_cex_null_field_after_clean :
    ((pipeline exDB).all rowNoNull) = false := by
  rw [eval_pipeline_exDB]
  rfl

/-- C1 as amended: after the Cleaner runs, every column except the three
derived ratio columns is non-null, and each ratio column is null exactly
when its denominator is zero (the null fill runs before, not after, the
ratio derivations). -/
theorem C1_no_null_except_derived (db : Database) (row : CRow)
    (h : row ∈ pipeline db) :
    (row.ProfitMargin = Val.null ↔ row.TotalSalesDollars = Val.num 0) ∧
    (row.SalestoPurchaseRatio = Val.null ↔
      row.TotalPurchaseDollars = Val.num 0) ∧
    (row.StockTurnover = Val.null ↔
      row.TotalPurchaseQuantity = Val.num 0) ∧
    row.VendorNumber ≠ Val.null ∧ row.VendorName ≠ Val.null ∧
    row.Brand ≠ Val.null ∧ row.Description ≠ Val.null ∧
    row.PurchasePrice ≠ Val.null ∧ row.ActualPrice ≠ Val.null ∧
    row.Volume ≠ Val.null ∧ row.TotalPurchaseQuantity ≠ Val.null ∧
    row.TotalPurchaseDollars ≠ Val.null ∧
    row.TotalSalesQuantity ≠ Val.null ∧
    row.TotalSalesDollars ≠ Val.null ∧ row.TotalSalesPrice ≠ Val.null ∧
    row.TotalExciseTax ≠ Val.null ∧ row.FreightCost ≠ Val.null ∧
    row.GrossProfit ≠ Val.null := by
  rcases mem_pipeline.mp h with ⟨q, hq, rfl⟩
  refine ⟨?_, ?_, ?_, ?_, ?_, ?_, ?_, ?_, ?_, ?_, ?_, ?_, ?_, ?_, ?_, ?_,
    ?_, ?_⟩
  · rw [ctr_PM, ctr_TSD]
    by_cases h0 : q.TotalSalesDollars.getD 0 = 0 <;> simp [h0]
  · rw [ctr_SPR, ctr_TPD]
    by_cases h0 : q.TotalPurchaseDollars = 0 <;> simp [h0]
  · rw [ctr_ST, ctr_TPQ]
    by_cases h0 : q.TotalPurchaseQuantity = 0 <;> simp [h0]
  · rw [ctr_VendorNumber]
    simp
  · rw [ctr_VendorName]
    simp
  · rw [ctr_Brand]
    simp
  · rw [ctr_Description]
    simp
  · rw [ctr_PurchasePrice]
    simp
  · rw [ctr_ActualPrice]
    simp
  · rw [ctr_Volume]
    simp
  · rw [ctr_TPQ]
    simp
  · rw [ctr_TPD]
    simp
  · rw [ctr_TSQ]
    simp
  · rw [ctr_TSD]
    simp
  · rw [ctr_TSP]
    simp
  · rw [ctr_TET]
    simp
  · rw [ctr_FreightCost]
    simp
  · rw [ctr_GP]
    simp

/-- Witness for the amended C1 at the scenario database. -/
theorem C1_no_null_except_derived_witness :
    (exRowOut.ProfitMargin = Val.null ↔
      exRowOut.TotalSalesDollars = Val.num 0) ∧
    exRowOut.GrossProfit ≠ Val.null :=
  ⟨(C1_no_null_except_derived exDB exRowOut
      (by rw [eval_pipeline_exDB]; exact List.mem_singleton.mpr rfl)).1,
   (C1_no_null_except_derived exDB exRowOut
      (by rw [eval_pipeline_exDB]; exact List.mem_singleton.mpr rfl)).2.2.2.2.2.2.2.2.2.2.2.2.2.2.2.2.2⟩

/-- C2 counterexample: on the scenario database the output row has
TotalSalesDollars = 0 yet its ProfitMargin is null rather than 0: the
zero-fill is applied BEFORE the null-from-division step, so the claimed
implication fails. -/
theorem C2_cex_profitmargin_not_zero :
    (pipeline exDB).map (fun r => (r.TotalSalesDollars, r.ProfitMargin)) =
      [(Val.num 0, Val.null)] ∧ (Val.null : Val) ≠ Val.num 0 := by
  constructor
  · rw [eval_pipeline_exDB]
    rfl
  · simp

/-- C2 as amended: in a cleaned pipeline row with TotalSalesDollars = 0,
ProfitMargin is null (not 0), while SalestoPurchaseRatio is 0 when
TotalPurchaseDollars is nonzero (a genuine 0 / x division, not a
null-fill) and null when TotalPurchaseDollars is 0. -/
theorem C2_zero_sales_profitmargin_null (db : Database) (row : CRow)
    (h : row ∈ pipeline db) (h0 : row.TotalSalesDollars = Val.num 0) :
    row.ProfitMargin = Val.null ∧
    (row.TotalPurchaseDollars ≠ Val.num 0 →
      row.SalestoPurchaseRatio = Val.num 0) ∧
    (row.TotalPurchaseDollars = Val.num 0 →
      row.SalestoPurchaseRatio = Val.null) := by
  rcases mem_pipeline.mp h with ⟨q, hq, rfl⟩
  rw [ctr_TSD] at h0
  have h0' : q.TotalSalesDollars.getD 0 = 0 := by simpa using h0
  refine ⟨?_, ?_, ?_⟩
  · rw [ctr_PM]
    simp [h0']
  · intro hp
    rw [ctr_TPD] at hp
    have hp' : q.TotalPurchaseDollars ≠ 0 := by simpa using hp
    rw [ctr_SPR]
    simp [hp', h0']
  · intro hp
    rw [ctr_TPD] at hp
    have hp' : q.TotalPurchaseDollars = 0 := by simpa using hp
    rw [ctr_SPR]
    simp [hp']

/-- Witness for the amended C2 at the scenario database. -/
theorem C2_zero_sales_profitmargin_null_witness :
    exRowOut.ProfitMargin = Val.null ∧
    exRowOut.SalestoPurchaseRatio = Val.num 0 :=
  ⟨(C2_zero_sales_profitmargin_null exDB exRowOut
      (by rw [eval_pipeline_exDB]; exact List.mem_singleton.mpr rfl) rfl).1,
   (C2_zero_sales_profitmargin_null exDB exRowOut
      (by rw [eval_pipeline_exDB]; exact List.mem_singleton.mpr rfl) rfl).2.1
      (by simp [exRowOut])⟩

/-- C3 counterexample: on the scenario input (one purchase line Vendor 1,
Brand "A", PurchasePrice 10, Qty 5, Dollars 50; matching price reference;
no sales; freight 3) the pipeline's ProfitMargin is NOT 0 — it is null,
because the null fill precedes the ratio derivations. -/
theorem C3_cex_scenario_profitmargin :
    (pipeline exDB).map (fun r => r.ProfitMargin) ≠ [Val.num 0] := by
  rw [eval_pipeline_exDB]
  simp [exRowOut]

/-- C3 as amended: on the scenario input the pipeline produces exactly one
row with TotalPurchaseQuantity 5, TotalPurchaseDollars 50,
TotalSalesQuantity 0, TotalSalesDollars 0, FreightCost 3, GrossProfit
-50, SalestoPurchaseRatio 0, StockTurnover 0 — and ProfitMargin null
(instead of the claimed 0). -/
theorem C3_scenario_output :
    (pipeline exDB).map (fun r => (r.TotalPurchaseQuantity,
      r.TotalPurchaseDollars, r.TotalSalesQuantity, r.TotalSalesDollars,
      r.FreightCost, r.GrossProfit, r.ProfitMargin,
      r.SalestoPurchaseRatio, r.StockTurnover)) =
      [(Val.num 5, Val.num 50, Val.num 0, Val.num 0, Val.num 3,
        Val.num (-50), Val.null, Val.num 0, Val.num 0)] := by
  rw [eval_pipeline_exDB]
  rfl

/-- C8: a purchase line contributes to PurchaseSummary exactly when its
PurchasePrice is strictly positive and its Brand has a matching
purchase-prices row (inner join: unmatched brands are silently dropped);
the contributing (line, reference) pairs are grouped by the seven-column
key, one output row per distinct key, with Quantity and Dollars summed
within each group. -/
theorem C8_purchase_agg_contract (db : Database) :
    (∀ p r, (p, r) ∈ purchaseJoined db ↔
      (p ∈ db.purchases ∧ r ∈ db.purchase_prices ∧
        0 < p.PurchasePrice ∧ r.Brand = p.Brand)) ∧
    ((purchaseSummary db).map PurchaseAggRow.key).Nodup ∧
    (∀ k, (∃ row ∈ purchaseSummary db, row.key = k) ↔
      ∃ pr ∈ purchaseJoined db, pkeyOf pr = k) ∧
    (∀ row ∈ purchaseSummary db,
      row.TotalPurchaseQuantity = (((purchaseJoined db).filter
        (fun pr => pkeyOf pr = row.key)).map (fun pr => pr.1.Quantity)).sum ∧
      row.TotalPurchaseDollars = (((purchaseJoined db).filter
        (fun pr => pkeyOf pr = row.key)).map (fun pr => pr.1.Dollars)).sum) := by
  refine ⟨?_, purchaseSummary_keys_nodup db, ?_, ?_⟩
  · intro p r
    simp only [purchaseJoined, List.mem_filter, List.mem_flatMap,
      List.mem_map, Prod.mk.injEq, decide_eq_true_eq]
    constructor
    · rintro ⟨⟨a, ha, b, hb, rfl, rfl⟩, hpos⟩
      exact ⟨ha, hb.1, hpos, hb.2⟩
    · rintro ⟨hp, hr, hpos, hbr⟩
      exact ⟨⟨p, hp, r, ⟨hr, hbr⟩, rfl, rfl⟩, hpos⟩
  · intro k
    constructor
    · rintro ⟨row, hrow, rfl⟩
      rcases List.mem_map.mp hrow with ⟨k2, hk2, rfl⟩
      rcases List.mem_map.mp (List.mem_dedup.mp hk2) with ⟨pr, hpr, rfl⟩
      exact ⟨pr, hpr, rfl⟩
    · rintro ⟨pr, hpr, rfl⟩
      refine ⟨_, List.mem_map.mpr ⟨pkeyOf pr,
        List.mem_dedup.mpr (List.mem_map_of_mem pkeyOf hpr), rfl⟩, rfl⟩
  · intro row hrow
    rcases List.mem_map.mp hrow with ⟨k2, hk2, rfl⟩
    exact ⟨rfl, rfl⟩

/-- Witness for C8 at the scenario database: the scenario purchase line
(price 10 > 0, brand matched) contributes, and its key appears in
PurchaseSummary. -/
theorem C8_purchase_agg_contract_witness :
    ((exPurchase, exRef) ∈ purchaseJoined exDB) ∧
    (∃ row ∈ purchaseSummary exDB, row.key = pkeyOf (exPurchase, exRef)) := by
  have h := C8_purchase_agg_contract exDB
  have h1 : (exPurchase, exRef) ∈ purchaseJoined exDB :=
    (h.1 exPurchase exRef).mpr ⟨by simp [exDB], by simp [exDB],
      by norm_num [exPurchase], rfl⟩
  exact ⟨h1, (h.2.2.1 (pkeyOf (exPurchase, exRef))).mpr
    ⟨(exPurchase, exRef), h1, rfl⟩⟩
